import Mathlib

/-!
Verification of the cattle-farm simulation core against its specification.

The Python sources under src/simulation are embedded shallowly:
  * Python ints are embedded as Nat/Int, Python floats as exact rationals
    (or reals where a square root is taken);
  * each call of random.random() / self.random.random() reads the next value
    of an explicit stream, passed as a function from draw index to value;
  * fallible operations (Python code that can raise, such as a division by
    zero) return Option.
Every definition is translated from the source file and lines named in its
doc comment.
-/

namespace CattleFarm

/-- Removal reasons, from src/simulation/handlers.py lines 9-13
(class RemovalReasons). -/
inductive RemovalReasons where
  | NONE
  | AGE
  | DISEASE
  | RANDOM_CHECK
  deriving DecidableEq

/-- The aggregate counters of the population registry, from
src/simulation/model.py lines 22-32 (class Statistics).  Counters are Python
ints, embedded as integers; virus_located is a boolean flag. -/
structure Statistics where
  cattle_count : ℤ
  infected_count : ℤ
  vaccinated_count : ℤ
  died_of_age : ℤ
  died_of_disease : ℤ
  removed_by_random_check : ℤ
  virus_located : Bool
  deriving DecidableEq

/-- Statistics.__init__ (src/simulation/model.py lines 23-32): every counter
starts at zero and the virus has not been located. -/
def initialStatistics : Statistics :=
  { cattle_count := 0
    infected_count := 0
    vaccinated_count := 0
    died_of_age := 0
    died_of_disease := 0
    removed_by_random_check := 0
    virus_located := false }

/-- Effect of CattleFarmModel.add_agent on the statistics
(src/simulation/model.py lines 105-109): the cattle count grows only when
should_account_agent is set. -/
def addAgentStats (s : Statistics) (should_account_agent : Bool) : Statistics :=
  if should_account_agent then { s with cattle_count := s.cattle_count + 1 } else s

/-- Effect of CattleFarmModel.remove_agent on the statistics
(src/simulation/model.py lines 111-121): an infected agent decrements the
infected count; any reason other than NONE decrements the cattle count and
increments its own counter. -/
def removeAgentStats (s : Statistics) (is_infected : Bool) (reason : RemovalReasons) :
    Statistics :=
  let s1 := if is_infected then { s with infected_count := s.infected_count - 1 } else s
  if reason = RemovalReasons.NONE then s1
  else
    let s2 := { s1 with cattle_count := s1.cattle_count - 1 }
    match reason with
    | RemovalReasons.AGE => { s2 with died_of_age := s2.died_of_age + 1 }
    | RemovalReasons.DISEASE => { s2 with died_of_disease := s2.died_of_disease + 1 }
    | RemovalReasons.RANDOM_CHECK =>
        { s2 with removed_by_random_check := s2.removed_by_random_check + 1 }
    | RemovalReasons.NONE => s2

/-- Bookkeeping the model holds for one agent under study: the registry
counters, whether the agent has an entry in the continuous space
(the SpatialIndex), and whether it is in the scheduler (the live set of the
population registry). -/
structure WorldRefs where
  stats : Statistics
  inSpace : Bool
  inSchedule : Bool
  deriving DecidableEq

/-- max_age, from src/simulation/cattle_agent.py line 14 (and identically
aging_constants in src/simulation/handlers.py line 71): 11 * 356 days. -/
def max_age : ℕ := 11 * 356

/-- The aging part of Cattle.step (src/simulation/cattle_agent.py lines 54-57):
age_days is incremented; once it reaches max_age the agent is removed from the
continuous space only (self.space.remove_agent(self)) and the method returns.
Neither model.remove_agent nor the scheduler nor the statistics is touched.
Returns the new age, the updated bookkeeping, and whether the step returned
early because the agent was removed. -/
def cattleStepAging (age_days : ℕ) (w : WorldRefs) : ℕ × WorldRefs × Bool :=
  let age := age_days + 1
  if max_age ≤ age then (age, { w with inSpace := false }, true)
  else (age, w, false)

/-- CattleFarmModel.remove_agent (src/simulation/model.py lines 111-123): the
statistics are updated per removeAgentStats and the agent leaves both the
continuous space and the scheduler. -/
def modelRemoveAgent (is_infected : Bool) (reason : RemovalReasons) (w : WorldRefs) :
    WorldRefs :=
  { stats := removeAgentStats w.stats is_infected reason
    inSpace := false
    inSchedule := false }

/-- base_mortality_rate = 0.6, from infection_constants in
src/simulation/handlers.py line 233. -/
def base_mortality_rate : ℚ := 3 / 5

/-- The mortality chance of InfectionHandler.__will_agent_die
(src/simulation/handlers.py lines 284-285): base_mortality_rate divided by
math.ceil(age_days / 356).  Python raises ZeroDivisionError when the ceiling
is zero (age_days = 0), embedded as none. -/
def chanceOfMortality (age_days : ℕ) : Option ℚ :=
  let age_in_years : ℤ := ⌈(age_days : ℚ) / 356⌉
  if age_in_years = 0 then none
  else some (base_mortality_rate / (age_in_years : ℚ))

/-- InfectionHandler.__will_agent_die (src/simulation/handlers.py lines
280-287), run by gets_infected: a vaccinated agent has the flag forced false;
otherwise the flag becomes true when the draw is at most the mortality chance
and keeps its previous value when the draw fails.  none embeds the
ZeroDivisionError at age_days = 0. -/
def willAgentDie (is_vaccinated : Bool) (age_days : ℕ) (is_going_to_die : Bool)
    (draw : ℚ) : Option Bool :=
  if is_vaccinated then some false
  else (chanceOfMortality age_days).map fun c =>
    if draw ≤ c then true else is_going_to_die

/-- Modelled from the words of claim C3 and spec section 4.3, for comparison
with willAgentDie: the same draw but with the divisor ceil(age_days / 365). -/
def specWillAgentDie365 (is_vaccinated : Bool) (age_days : ℕ) (is_going_to_die : Bool)
    (draw : ℚ) : Option Bool :=
  if is_vaccinated then some false
  else
    let age_in_years : ℤ := ⌈(age_days : ℚ) / 365⌉
    if age_in_years = 0 then none
    else some (if draw ≤ base_mortality_rate / (age_in_years : ℚ) then true
               else is_going_to_die)

/-- One transmission attempt of InfectionHandler.__infect_neighbors
(src/simulation/handlers.py lines 274-278) against a single healthy neighbor.
g is the stream of successive self.agent.random.random() values; the result is
whether the neighbor gets infected and how many draws were consumed.  Python
short-circuits the condition of the first branch, so an unvaccinated neighbor
draws nothing there and is decided by the elif draw alone; a vaccinated
neighbor whose first draw exceeds chance * 0.75 falls through to the elif,
which performs a second draw against the full chance. -/
def infectNeighborAttempt (is_vaccinated : Bool) (chance : ℚ) (g : ℕ → ℚ) :
    Bool × ℕ :=
  if is_vaccinated then
    if g 0 ≤ chance * (3 / 4) then (true, 1)
    else if g 1 ≤ chance then (true, 2) else (false, 2)
  else
    if g 0 ≤ chance then (true, 1) else (false, 1)

/-- Modelled from the words of claim C2 and spec section 4.3, for comparison
with infectNeighborAttempt: one Bernoulli draw per neighbor, the threshold
reduced to chance * 0.75 for a vaccinated neighbor. -/
def specInfectSingleDraw (is_vaccinated : Bool) (chance : ℚ) (g : ℕ → ℚ) :
    Bool × ℕ :=
  (decide (g 0 ≤ if is_vaccinated then chance * (3 / 4) else chance), 1)

/-- gestation_length_days = 285, from src/simulation/cattle_agent.py line 19
(and identically pregnancy_constants in src/simulation/handlers.py line 189). -/
def gestation_length_days : ℕ := 285

/-- female_fetus_chance = 0.5, from src/simulation/cattle_agent.py line 18. -/
def female_fetus_chance : ℚ := 1 / 2

/-- One per-tick update of days_pregnant, from FemaleCattle.handle_pregnancy
(src/simulation/cattle_agent.py lines 92-105; the counter logic of
PregnancyHandler._action, src/simulation/handlers.py lines 204-211, is
identical).  -1 encodes not pregnant; gets_fertilized sets the counter to 0;
once the counter has reached gestation_length_days the update resets it to -1
whatever the delivery draw gives, and otherwise increments it. -/
def daysPregnantNext (d : ℤ) : ℤ :=
  if d = -1 then -1
  else if (gestation_length_days : ℤ) ≤ d then -1
  else d + 1

/-- Whether the per-tick update starting from counter d runs the delivery
branch, i.e. performs the random draw against female_fetus_chance
(src/simulation/cattle_agent.py lines 94-95). -/
def deliveryDrawHappens (d : ℤ) : Bool :=
  decide (d ≠ -1) && decide ((gestation_length_days : ℤ) ≤ d)

/-- Whether the update spawns a newborn: the delivery branch runs and the draw
is strictly below female_fetus_chance (src/simulation/cattle_agent.py line 95). -/
def babyBorn (d : ℤ) (draw : ℚ) : Bool :=
  deliveryDrawHappens d && decide (draw < female_fetus_chance)

/-- days_pregnant after k per-tick updates following gets_fertilized, which
set the counter to 0 (src/simulation/cattle_agent.py lines 117-118). -/
def daysPregnantAfter : ℕ → ℤ
  | 0 => 0
  | k + 1 => daysPregnantNext (daysPregnantAfter k)

/-- Per-axis boundary handling of __assure_boid_stays_in_space
(src/simulation/boid.py lines 118-124; identically
src/simulation/handlers.py lines 175-181), with the walls at 0 and size as
set up by ContinuousSpace(size, size, False) in CattleFarmModel.__init__
(src/simulation/model.py line 67): when the prospective next coordinate falls
at or beyond either wall the axis component of the heading is negated. -/
def reflectHeadingAxis (p h speed size : ℚ) : ℚ :=
  if p + h * speed ≤ 0 ∨ size ≤ p + h * speed then -h else h

/-- __assure_boid_stays_in_space applied to both axes (src/simulation/boid.py
lines 111-126). -/
def assureBoidStaysInSpace (pos heading : ℚ × ℚ) (speed size : ℚ) : ℚ × ℚ :=
  (reflectHeadingAxis pos.1 heading.1 speed size,
   reflectHeadingAxis pos.2 heading.2 speed size)

/-- The committed move of Boid.step (src/simulation/boid.py lines 106-109):
new_pos = pos + fixed_heading * speed. -/
def movementNewPos (pos heading : ℚ × ℚ) (speed size : ℚ) : ℚ × ℚ :=
  let h := assureBoidStaysInSpace pos heading speed size
  (pos.1 + h.1 * speed, pos.2 + h.2 * speed)

/-- The containment the spec asserts: both coordinates within [0, size]. -/
abbrev inSpaceBox (p : ℚ × ℚ) (size : ℚ) : Prop :=
  0 ≤ p.1 ∧ p.1 ≤ size ∧ 0 ≤ p.2 ∧ p.2 ≤ size

/-- mating_chance = 0.8, from src/simulation/cattle_agent.py line 16. -/
def mating_chance : ℚ := 4 / 5

/-- fertilization_chance = 0.6, from src/simulation/cattle_agent.py line 17. -/
def fertilization_chance : ℚ := 3 / 5

/-- MaleCattle.look_for_mating (src/simulation/cattle_agent.py lines 141-149).
modelStream is the stream of the Mesa model's seeded generator (self.random),
which this method never touches: the module-level random.choice and
random.random of the process-global generator, whose stream is g, are used
instead.  random.choice is modelled as one uniform draw picking index
floor(g 0 * n).  Returns the index of the fertilized female, if any, and the
number of draws consumed from g; the conjunction random() < mating_chance and
random() < fertilization_chance short-circuits, so a failed first comparison
consumes no second draw. -/
def lookForMating (modelStream : ℕ → ℚ) (g : ℕ → ℚ) (numFertileFemales : ℕ) :
    Option ℕ × ℕ :=
  if numFertileFemales = 0 then (none, 0)
  else
    let chosen := (⌊g 0 * (numFertileFemales : ℚ)⌋).toNat
    if g 1 < mating_chance then
      if g 2 < fertilization_chance then (some chosen, 3) else (none, 3)
    else (none, 2)

/-- min_mating_age = 1 * 356, from src/simulation/cattle_agent.py line 12. -/
def min_mating_age : ℕ := 1 * 356

/-- MaleCattle.reset_age (src/simulation/cattle_agent.py lines 151-152). -/
def resetAge (_age : ℕ) : ℕ := min_mating_age

/-- CattleFarmModel.__random_position (src/simulation/model.py lines 146-149):
two fresh draws of the model stream scaled by x_max = y_max = size. -/
def randomPosition (d1 d2 size : ℚ) : ℚ × ℚ := (d1 * size, d2 * size)

/-- The state a stored seasonal male carries between seasons. -/
structure MaleState where
  age_days : ℕ
  pos : ℚ × ℚ
  deriving DecidableEq

/-- The season-entry branch of CattleFarmModel.__handle_mating_seasons
(src/simulation/model.py lines 167-171): every stored male is inserted via
add_agent(male, self.__random_position(), False), so the cattle count is not
accounted.  The male's age is left as it stands: reset_age exists
(src/simulation/cattle_agent.py lines 151-152) but is called nowhere.  g is
the model stream supplying the position draws, two per male. -/
def enterMatingSeason (s : Statistics) (males : List MaleState) (g : ℕ → ℚ)
    (size : ℚ) : Statistics × List MaleState :=
  match males with
  | [] => (s, [])
  | m :: rest =>
      let s2 := addAgentStats s false
      let m2 : MaleState := { age_days := m.age_days
                              pos := randomPosition (g 0) (g 1) size }
      let r := enterMatingSeason s2 rest (fun i => g (i + 2)) size
      (r.1, m2 :: r.2)

/-- The season-exit branch of CattleFarmModel.__handle_mating_seasons
(src/simulation/model.py lines 172-176): remove_agent(male, RemovalReasons.NONE)
for every stored male; MaleCattle.is_infected is always False
(src/simulation/cattle_agent.py lines 154-160). -/
def leaveMatingSeason (s : Statistics) (males : List MaleState) : Statistics :=
  males.foldl (fun acc _ => removeAgentStats acc false RemovalReasons.NONE) s

/-- CattleFarmModel.mating_season (src/simulation/model.py lines 136-138):
month within April to May. -/
def matingSeason (month : ℕ) : Bool :=
  decide (4 ≤ month) && decide (month ≤ 5)

/-- CattleFarmModel.__handle_mating_seasons (src/simulation/model.py lines
166-176): entering the season inserts the males, leaving removes them; the two
guards are exclusive through mating_season.  Returns the new males_in_cage
flag, statistics and male list. -/
def handleMatingSeasons (month : ℕ) (males_in_cage : Bool) (s : Statistics)
    (males : List MaleState) (g : ℕ → ℚ) (size : ℚ) :
    Bool × Statistics × List MaleState :=
  if matingSeason month && !males_in_cage then
    let r := enterMatingSeason s males g size
    (true, r.1, r.2)
  else if !(matingSeason month) && males_in_cage then
    (false, leaveMatingSeason s males, males)
  else (males_in_cage, s, males)

/-- Every mutation of CattleFarmModel.statistics found in the sources:
add_agent (src/simulation/model.py lines 105-109), remove_agent (lines
111-123), the recovery branch of InfectionHandler.__heal
(src/simulation/handlers.py line 294) and the detection branch of
__random_infection_check (src/simulation/model.py line 164). -/
inductive StatsEvent where
  | addAgent (should_account_agent : Bool)
  | removeAgent (is_infected : Bool) (reason : RemovalReasons)
  | healRecovered
  | virusLocated

/-- How each mutation site rewrites the Statistics record. -/
def applyStatsEvent (s : Statistics) : StatsEvent → Statistics
  | StatsEvent.addAgent b => addAgentStats s b
  | StatsEvent.removeAgent i r => removeAgentStats s i r
  | StatsEvent.healRecovered => { s with infected_count := s.infected_count - 1 }
  | StatsEvent.virusLocated => { s with virus_located := true }

/-! The heading computation of the movement step works on numpy float arrays
and takes a Euclidean norm, so it is embedded over the reals. -/

/-- A 2-element numpy array of the movement code. -/
abbrev Vec2 := ℝ × ℝ

/-- Componentwise array addition. -/
noncomputable def vAdd (a b : Vec2) : Vec2 := (a.1 + b.1, a.2 + b.2)

/-- Scalar multiplication of an array. -/
noncomputable def sMul (c : ℝ) (v : Vec2) : Vec2 := (c * v.1, c * v.2)

/-- Componentwise division of an array by a scalar. -/
noncomputable def vDiv (v : Vec2) (c : ℝ) : Vec2 := (v.1 / c, v.2 / c)

/-- Sum of a list of arrays, starting from np.zeros(2). -/
noncomputable def vListSum (l : List Vec2) : Vec2 := l.foldl vAdd (0, 0)

/-- np.linalg.norm of a 2-element array. -/
noncomputable def npNorm (v : Vec2) : ℝ := Real.sqrt (v.1 ^ 2 + v.2 ^ 2)

/-- mesa ContinuousSpace.get_heading for the non-torus space of this model:
the difference vector from p to q. -/
noncomputable def getHeading (p q : Vec2) : Vec2 := (q.1 - p.1, q.2 - p.2)

/-- mesa ContinuousSpace.get_distance: the Euclidean distance. -/
noncomputable def getDistance (p q : Vec2) : ℝ := npNorm (getHeading p q)

/-- A neighbor as the movement step reads it: its position and heading. -/
structure NeighborBoid where
  pos : Vec2
  heading : Vec2

/-- Boid.cohere (src/simulation/boid.py lines 59-68): the sum of the heading
vectors toward each neighbor, divided by the neighbor count when there are
neighbors. -/
noncomputable def cohereVec (pos : Vec2) (neighbors : List NeighborBoid) : Vec2 :=
  match neighbors with
  | [] => (0, 0)
  | _ => sMul (1 / (neighbors.length : ℝ))
      (vListSum (neighbors.map fun n => getHeading pos n.pos))

/-- Boid.separate (src/simulation/boid.py lines 70-80): minus the sum of the
headings toward the neighbors strictly closer than the separation distance
(each contributing term is negated, which sums to the same vector). -/
noncomputable def separateVec (pos : Vec2) (separation : ℝ)
    (neighbors : List NeighborBoid) : Vec2 :=
  vListSum (neighbors.map fun n =>
    if getDistance pos n.pos < separation then sMul (-1) (getHeading pos n.pos)
    else (0, 0))

/-- Boid.match_heading (src/simulation/boid.py lines 82-91): the neighbors'
average heading. -/
noncomputable def matchHeadingVec (neighbors : List NeighborBoid) : Vec2 :=
  match neighbors with
  | [] => (0, 0)
  | _ => sMul (1 / (neighbors.length : ℝ))
      (vListSum (neighbors.map NeighborBoid.heading))

/-- The value held by self.heading after the line
heading += (cohere * c + separate * s + match * m) / 2 of Boid.step
(src/simulation/boid.py lines 99-104; identically MovementHandler._action,
src/simulation/handlers.py lines 122-127).  The local name heading and
self.heading are the same numpy array, and += mutates that array in place, so
after this line self.heading itself already holds the steered vector. -/
noncomputable def updatedHeading (pos heading : Vec2) (neighbors : List NeighborBoid)
    (cohere_factor separate_factor match_factor separation : ℝ) : Vec2 :=
  vAdd heading (sMul (1 / 2)
    (vAdd (vAdd (sMul cohere_factor (cohereVec pos neighbors))
                (sMul separate_factor (separateVec pos separation neighbors)))
          (sMul match_factor (matchHeadingVec neighbors))))

/-- The heading produced by the renormalization line
heading /= np.linalg.norm(self.heading) (src/simulation/boid.py line 105;
identically src/simulation/handlers.py line 128).  Because of the in-place
aliasing noted at updatedHeading, np.linalg.norm(self.heading) is evaluated on
the already-updated array: the steered vector is divided by its own norm. -/
noncomputable def newHeading (pos heading : Vec2) (neighbors : List NeighborBoid)
    (cohere_factor separate_factor match_factor separation : ℝ) : Vec2 :=
  vDiv (updatedHeading pos heading neighbors cohere_factor separate_factor
          match_factor separation)
       (npNorm (updatedHeading pos heading neighbors cohere_factor separate_factor
          match_factor separation))

/-- Modelled from the words of claim C1 and spec section 4.2, for comparison
with newHeading: the steered vector divided by the norm of the PRE-update
heading. -/
noncomputable def specNewHeadingPreNorm (pos heading : Vec2)
    (neighbors : List NeighborBoid)
    (cohere_factor separate_factor match_factor separation : ℝ) : Vec2 :=
  vDiv (updatedHeading pos heading neighbors cohere_factor separate_factor
          match_factor separation)
       (npNorm heading)

/-! ### Theorems -/

/-- A single statistics mutation never clears a set virus_located flag. -/
theorem applyStatsEvent_keeps_virus_located (s : Statistics) (e : StatsEvent)
    (h : s.virus_located = true) : (applyStatsEvent s e).virus_located = true := by
  cases e with
  | addAgent b => cases b <;> simp [applyStatsEvent, addAgentStats, h]
  | removeAgent i r =>
      cases i <;> cases r <;> simp [applyStatsEvent, removeAgentStats, h]
  | healRecovered => simpa [applyStatsEvent] using h
  | virusLocated => simp [applyStatsEvent]

/-- Folding statistics mutations never clears a set virus_located flag. -/
theorem foldl_keeps_virus_located (es : List StatsEvent) (s : Statistics)
    (h : s.virus_located = true) :
    (es.foldl applyStatsEvent s).virus_located = true := by
  induction es generalizing s with
  | nil => exact h
  | cons e rest ih => exact ih _ (applyStatsEvent_keeps_virus_located s e h)

/-- Claim C9: once the surveillance check sets the virus-located flag, no
sequence of further statistics mutations found in the sources (agent
insertions, removals for any reason, disease recoveries, further detections)
ever sets it back to false: the flag stays true for the rest of the run. -/
theorem c9_virus_located_sticky (s : Statistics) (es : List StatsEvent) :
    (es.foldl applyStatsEvent (applyStatsEvent s StatsEvent.virusLocated)).virus_located
      = true :=
  foldl_keeps_virus_located es _ (by simp [applyStatsEvent])

/-- Claim C10: gets_infected on an unvaccinated agent runs the mortality
computation, which divides by ceil(age_days / 356); at age_days = 0 the
ceiling is 0 and the Python division raises ZeroDivisionError (embedded as
none), so the operation is total exactly under the precondition
age_days ≥ 1. -/
theorem c10_mortality_partial_at_age_zero (age_days : ℕ) (prev : Bool) (draw : ℚ) :
    willAgentDie false 0 prev draw = none ∧
    ((willAgentDie false age_days prev draw).isSome ↔ 1 ≤ age_days) := by
  constructor
  · have h0 : ((0 : ℕ) : ℚ) / 356 = 0 := by norm_num
    simp [willAgentDie, chanceOfMortality, h0]
  · by_cases hz : age_days = 0
    · subst hz
      have h0 : ((0 : ℕ) : ℚ) / 356 = 0 := by norm_num
      simp [willAgentDie, chanceOfMortality, h0]
    · have h1 : 1 ≤ age_days := Nat.one_le_iff_ne_zero.mpr hz
      have hq : (0 : ℚ) < (age_days : ℚ) := by exact_mod_cast h1
      have hpos : (0 : ℚ) < (age_days : ℚ) / 356 := by positivity
      have hceil : 0 < ⌈(age_days : ℚ) / 356⌉ := Int.ceil_pos.mpr hpos
      have hne : ⌈(age_days : ℚ) / 356⌉ ≠ 0 := by omega
      simp [willAgentDie, chanceOfMortality, hne, h1]

/-- Claim C2 (code bug): with chance 4/5 and the draw stream 7/10, 1/2, ...,
a vaccinated neighbor is infected after two draws even though its first draw
7/10 exceeds the claimed single-draw threshold 4/5 * 3/4 = 3/5: the failed
vaccinated branch falls through to the elif and redraws at the full chance.
The single-draw model of the claim leaves the neighbor healthy on the same
stream, while an unvaccinated neighbor is decided by one draw. -/
theorem c2_vaccinated_neighbor_redrawn_at_full_chance :
    infectNeighborAttempt true (4 / 5) (fun i => if i = 0 then 7 / 10 else 1 / 2)
      = (true, 2) ∧
    ¬ ((7 : ℚ) / 10 ≤ (4 / 5) * (3 / 4)) ∧
    specInfectSingleDraw true (4 / 5) (fun i => if i = 0 then 7 / 10 else 1 / 2)
      = (false, 1) ∧
    infectNeighborAttempt false (4 / 5) (fun i => if i = 0 then 7 / 10 else 1 / 2)
      = (true, 1) := by
  refine ⟨?_, by norm_num, ?_, ?_⟩ <;>
    norm_num [infectNeighborAttempt, specInfectSingleDraw]

/-- Claim C4 (code bug): an agent with age_days = max_age - 1 = 3915 that is
activated once is removed from the continuous space only: Cattle.step leaves
the scheduler membership and every statistic (cattle_count, infected_count,
died_of_age) untouched, while the model's own remove_agent with reason AGE,
which the claim describes, would update all of them and remove the agent from
both structures. -/
theorem c4_age_removal_bypasses_registry :
    cattleStepAging 3915
        ⟨{ initialStatistics with cattle_count := 3, infected_count := 1 }, true, true⟩
      = (3916,
         ⟨{ initialStatistics with cattle_count := 3, infected_count := 1 }, false, true⟩,
         true) ∧
    modelRemoveAgent true RemovalReasons.AGE
        ⟨{ initialStatistics with cattle_count := 3, infected_count := 1 }, true, true⟩
      = ⟨{ initialStatistics with cattle_count := 2, infected_count := 0, died_of_age := 1 },
         false, false⟩ := by
  decide

/-- Claim C7 counterexample: two runs of the mating decision with the very
same model stream but different process-global streams give different
outcomes (a fertilization against none), so the mating draws do not consume
the model's single seedable stream and fixing its seed alone does not make
the run deterministic. -/
theorem c7_mating_ignores_model_stream :
    (lookForMating (fun _ => 37 / 100) (fun i => if i = 0 then 0 else 1 / 2) 1).1
      = some 0 ∧
    (lookForMating (fun _ => 37 / 100) (fun i => if i = 0 then 0 else 9 / 10) 1).1
      = none := by
  constructor <;> norm_num [lookForMating, mating_chance, fertilization_chance]

/-- Claim C7 as amended: the mating decision reads only the process-global
stream g; it is independent of the model stream, and two runs whose global
streams agree on the first three draws take the same decision. -/
theorem c7_mating_determined_by_global_stream
    (modelStream modelStream2 g g2 : ℕ → ℚ) (n : ℕ)
    (h : ∀ i, i < 3 → g i = g2 i) :
    lookForMating modelStream g n = lookForMating modelStream2 g2 n := by
  unfold lookForMating
  rw [h 0 (by norm_num), h 1 (by norm_num), h 2 (by norm_num)]

/-- Witness for c7_mating_determined_by_global_stream at concrete streams. -/
theorem c7_mating_witness :
    lookForMating (fun _ => (0 : ℚ)) (fun _ => (0 : ℚ)) 1
      = lookForMating (fun _ => (1 : ℚ)) (fun _ => (0 : ℚ)) 1 :=
  c7_mating_determined_by_global_stream _ _ _ _ 1 (fun _ _ => rfl)

/-- The ceiling of a natural number divided by 356 equals the rounded-up
natural division (a + 355) / 356. -/
theorem ceil_nat_div_356 (a : ℕ) :
    ⌈(a : ℚ) / 356⌉ = (((a + 355) / 356 : ℕ) : ℤ) := by
  set q : ℕ := (a + 355) / 356 with hqdef
  have hn : 356 * q ≤ a + 355 := by omega
  have hn2 : a ≤ 356 * q := by omega
  have hq1 : (356 : ℚ) * (q : ℚ) ≤ (a : ℚ) + 355 := by exact_mod_cast hn
  have hq2 : (a : ℚ) ≤ 356 * (q : ℚ) := by exact_mod_cast hn2
  rw [Int.ceil_eq_iff]
  constructor
  · rw [lt_div_iff₀ (by norm_num : (0 : ℚ) < 356)]
    push_cast
    linarith
  · rw [div_le_iff₀ (by norm_num : (0 : ℚ) < 356)]
    push_cast
    linarith

/-- Claim C3 counterexample: for an unvaccinated agent infected at
age_days = 360, the code draws against 0.6 / ceil(360 / 356) = 0.3 and the
draw 1/2 fails (the agent is not marked), whereas the claimed formula
0.6 / ceil(360 / 365) = 0.6 would accept the same draw and mark it. -/
theorem c3_mortality_divisor_cex :
    willAgentDie false 360 false (1 / 2) = some false ∧
    specWillAgentDie365 false 360 false (1 / 2) = some true := by
  have h356 : ⌈((360 : ℕ) : ℚ) / 356⌉ = 2 := by
    rw [Int.ceil_eq_iff]
    norm_num
  have h365 : ⌈((360 : ℕ) : ℚ) / 365⌉ = 1 := by
    rw [Int.ceil_eq_iff]
    norm_num
  constructor
  · unfold willAgentDie chanceOfMortality
    rw [h356]
    norm_num [base_mortality_rate]
  · unfold specWillAgentDie365
    rw [h365]
    norm_num [base_mortality_rate]

/-- Claim C3 as amended: at infection time a vaccinated agent is never marked
will-die, and an unvaccinated agent of age at least one day is marked exactly
when the draw is at most base_mortality_rate divided by ceil(age_days / 356)
(the repository uses 356-day years throughout), the ceiling written as the
rounded-up natural division. -/
theorem c3_mortality_divisor_356 (age_days : ℕ) (prev : Bool) (draw : ℚ)
    (h : 1 ≤ age_days) :
    willAgentDie true age_days prev draw = some false ∧
    willAgentDie false age_days prev draw =
      some (if draw ≤ base_mortality_rate / (((age_days + 355) / 356 : ℕ) : ℚ)
            then true else prev) := by
  refine ⟨rfl, ?_⟩
  have hq : 1 ≤ (age_days + 355) / 356 := by omega
  have hne : (((age_days + 355) / 356 : ℕ) : ℤ) ≠ 0 := by
    exact_mod_cast Nat.one_le_iff_ne_zero.mp hq
  unfold willAgentDie chanceOfMortality
  rw [ceil_nat_div_356 age_days]
  simp only [Bool.false_eq_true, if_false, if_neg hne, Option.map_some']
  norm_cast

/-- Witness for c3_mortality_divisor_356 at age 360 and draw 1/2. -/
theorem c3_mortality_divisor_witness :
    1 ≤ 360 ∧
    (willAgentDie true 360 false (1 / 2) = some false ∧
     willAgentDie false 360 false (1 / 2) =
       some (if (1 : ℚ) / 2 ≤ base_mortality_rate / (((360 + 355) / 356 : ℕ) : ℚ)
             then true else false)) :=
  ⟨by norm_num, c3_mortality_divisor_356 360 false (1 / 2) (by norm_num)⟩

/-- The pregnancy counter after k updates from a fresh fertilization is k, as
long as k has not passed the gestation length. -/
theorem daysPregnantAfter_le (k : ℕ) (hk : k ≤ gestation_length_days) :
    daysPregnantAfter k = (k : ℤ) := by
  induction k with
  | zero => rfl
  | succ n ih =>
    have hn : n ≤ gestation_length_days := Nat.le_of_succ_le hk
    have hk2 : n + 1 ≤ 285 := by simpa [gestation_length_days] using hk
    rw [daysPregnantAfter, ih hn, daysPregnantNext]
    have hg : (gestation_length_days : ℤ) = 285 := rfl
    rw [hg, if_neg (by omega), if_neg (by omega)]
    push_cast
    ring

/-- Claim C5 counterexample: 285 pregnancy updates after the fertilization
the delivery draw has still not happened (the counter is only then reaching
285), while the 286th update runs the draw and resets the counter.  When the
female's own activation at the fertilization tick T ran before the male set
the counter, her updates happen at ticks T+1, T+2, ..., so the draw falls on
tick T+286, not T+285 as the claim states. -/
theorem c5_delivery_not_on_285th_update :
    deliveryDrawHappens (daysPregnantAfter 284) = false ∧
    deliveryDrawHappens (daysPregnantAfter 285) = true ∧
    daysPregnantNext (daysPregnantAfter 285) = -1 := by
  have h284 : daysPregnantAfter 284 = ((284 : ℕ) : ℤ) :=
    daysPregnantAfter_le 284 (by norm_num [gestation_length_days])
  have h285 : daysPregnantAfter 285 = ((285 : ℕ) : ℤ) :=
    daysPregnantAfter_le 285 (by norm_num [gestation_length_days])
  refine ⟨?_, ?_, ?_⟩
  · rw [h284]; decide
  · rw [h285]; decide
  · rw [h285]; decide

/-- Claim C5 as amended: the delivery draw happens on the 286th pregnancy
update after the fertilization that set the counter to 0, and on no earlier
one; on that update the counter resets to not-pregnant whatever the draw
gives, and a newborn is spawned exactly when the draw is below
female_fetus_chance.  In tick terms the draw falls at tick T+285 when the
female's activation at the fertilization tick T followed the male's, and at
tick T+286 when it preceded it. -/
theorem c5_delivery_on_286th_update (n : ℕ) (draw : ℚ) (h1 : 1 ≤ n)
    (h2 : n ≤ 286) :
    (deliveryDrawHappens (daysPregnantAfter (n - 1)) = true ↔ n = 286) ∧
    (n = 286 → daysPregnantNext (daysPregnantAfter (n - 1)) = -1 ∧
      babyBorn (daysPregnantAfter (n - 1)) draw
        = decide (draw < female_fetus_chance)) := by
  have hd : daysPregnantAfter (n - 1) = ((n - 1 : ℕ) : ℤ) :=
    daysPregnantAfter_le (n - 1) (by simp only [gestation_length_days]; omega)
  have hg : (gestation_length_days : ℤ) = 285 := rfl
  constructor
  · rw [hd]
    unfold deliveryDrawHappens
    rw [hg]
    simp only [Bool.and_eq_true, decide_eq_true_eq]
    omega
  · intro hn
    subst hn
    rw [hd]
    refine ⟨by decide, ?_⟩
    unfold babyBorn deliveryDrawHappens
    rw [hg]
    norm_num

/-- Witness for c5_delivery_on_286th_update at n = 286 and draw 1/4. -/
theorem c5_delivery_witness :
    1 ≤ 286 ∧ 286 ≤ 286 ∧
    ((deliveryDrawHappens (daysPregnantAfter (286 - 1)) = true ↔ 286 = 286) ∧
     (286 = 286 → daysPregnantNext (daysPregnantAfter (286 - 1)) = -1 ∧
       babyBorn (daysPregnantAfter (286 - 1)) (1 / 4)
         = decide ((1 : ℚ) / 4 < female_fetus_chance))) :=
  ⟨by norm_num, by norm_num, c5_delivery_on_286th_update 286 (1 / 4) (by norm_num)
    (by norm_num)⟩

/-- One axis of the boundary handling keeps the coordinate inside [0, size]
as long as the per-axis displacement is at most half the space size. -/
theorem reflect_axis_contained (p h speed size : ℚ) (h0 : 0 ≤ p) (h1 : p ≤ size)
    (hd : |h * speed| ≤ size / 2) :
    0 ≤ p + reflectHeadingAxis p h speed size * speed ∧
    p + reflectHeadingAxis p h speed size * speed ≤ size := by
  rcases abs_le.mp hd with ⟨hl, hr⟩
  unfold reflectHeadingAxis
  by_cases hc : p + h * speed ≤ 0 ∨ size ≤ p + h * speed
  · rw [if_pos hc]
    have hneg : -h * speed = -(h * speed) := by ring
    rw [hneg]
    rcases hc with hc | hc
    · constructor <;> linarith
    · constructor <;> linarith
  · rw [if_neg hc]
    push_neg at hc
    constructor <;> linarith [hc.1, hc.2]

/-- Claim C6 counterexample: the agent at (1, 1) with heading (-10, 0), speed
50 and space size 100 starts inside the space, triggers the left-wall
reflection, and the reflected move lands it at (501, 1), outside [0, 100]:
the per-axis inversion alone does not guarantee containment for arbitrary
headings. -/
theorem c6_reflection_leaves_space :
    inSpaceBox ((1 : ℚ), (1 : ℚ)) 100 ∧
    movementNewPos (1, 1) (-10, 0) 50 100 = (501, 1) ∧
    ¬ inSpaceBox (movementNewPos (1, 1) (-10, 0) 50 100) 100 := by
  refine ⟨by norm_num [inSpaceBox], ?_, ?_⟩
  · norm_num [movementNewPos, assureBoidStaysInSpace, reflectHeadingAxis]
  · norm_num [inSpaceBox, movementNewPos, assureBoidStaysInSpace, reflectHeadingAxis]

/-- Claim C6 as amended: starting inside [0, size] on both axes, the movement
step (per-axis heading inversion at the walls, then position + heading *
speed) keeps the agent inside [0, size] on both axes provided each axis
displacement heading_i * speed has magnitude at most size / 2 — as holds for
the simulation's unit-renormalized headings with speed 50 in a space of size
1000, but not for arbitrary headings. -/
theorem c6_containment_with_bounded_step (pos heading : ℚ × ℚ) (speed size : ℚ)
    (hp : inSpaceBox pos size)
    (hx : |heading.1 * speed| ≤ size / 2) (hy : |heading.2 * speed| ≤ size / 2) :
    inSpaceBox (movementNewPos pos heading speed size) size := by
  obtain ⟨a1, a2, a3, a4⟩ := hp
  obtain ⟨b1, b2⟩ := reflect_axis_contained pos.1 heading.1 speed size a1 a2 hx
  obtain ⟨c1, c2⟩ := reflect_axis_contained pos.2 heading.2 speed size a3 a4 hy
  exact ⟨b1, b2, c1, c2⟩

/-- Witness for c6_containment_with_bounded_step at a concrete state. -/
theorem c6_containment_witness :
    inSpaceBox ((30 : ℚ), (40 : ℚ)) 100 ∧
    |((1 : ℚ) / 2, -(1 : ℚ) / 2).1 * 50| ≤ 100 / 2 ∧
    |((1 : ℚ) / 2, -(1 : ℚ) / 2).2 * 50| ≤ 100 / 2 ∧
    inSpaceBox (movementNewPos (30, 40) (1 / 2, -1 / 2) 50 100) 100 :=
  ⟨by norm_num [inSpaceBox], by norm_num, by norm_num,
   c6_containment_with_bounded_step (30, 40) (1 / 2, -1 / 2) 50 100
     (by norm_num [inSpaceBox]) (by norm_num) (by norm_num)⟩

/-- add_agent with should_account_agent = False changes no statistic. -/
theorem addAgentStats_false (s : Statistics) : addAgentStats s false = s := rfl

/-- remove_agent of a non-infected agent with reason NONE changes no
statistic. -/
theorem removeAgentStats_none (s : Statistics) :
    removeAgentStats s false RemovalReasons.NONE = s := rfl

/-- Entering the season leaves the statistics unchanged and keeps every
male's age as it was. -/
theorem enterMatingSeason_eff (s : Statistics) (males : List MaleState)
    (g : ℕ → ℚ) (size : ℚ) :
    (enterMatingSeason s males g size).1 = s ∧
    (enterMatingSeason s males g size).2.map MaleState.age_days
      = males.map MaleState.age_days := by
  induction males generalizing s g with
  | nil => exact ⟨rfl, rfl⟩
  | cons m rest ih =>
    obtain ⟨h1, h2⟩ := ih (addAgentStats s false) (fun i => g (i + 2))
    rw [addAgentStats_false] at h1
    refine ⟨?_, ?_⟩
    · simpa [enterMatingSeason] using h1
    · simpa [enterMatingSeason] using h2

/-- Leaving the season leaves the statistics unchanged. -/
theorem leaveMatingSeason_id (s : Statistics) (males : List MaleState) :
    leaveMatingSeason s males = s := by
  induction males generalizing s with
  | nil => rfl
  | cons m rest ih =>
    show (m :: rest).foldl _ s = s
    rw [List.foldl_cons, removeAgentStats_none]
    exact ih s

/-- Claim C8 as amended: on the tick entering the mating season every stored
male is inserted with a fresh random position but with its age left as it
stands (reset_age is never called), and on the tick leaving the season all
males are removed; neither transition changes the cattle count or any other
statistic. -/
theorem c8_season_transitions_census_neutral (month month2 : ℕ) (s : Statistics)
    (males : List MaleState) (g : ℕ → ℚ) (size : ℚ)
    (hin : matingSeason month = true) (hout : matingSeason month2 = false) :
    handleMatingSeasons month false s males g size
      = (true, s, (enterMatingSeason s males g size).2) ∧
    ((enterMatingSeason s males g size).2.map MaleState.age_days
      = males.map MaleState.age_days) ∧
    handleMatingSeasons month2 true s males g size = (false, s, males) := by
  obtain ⟨e1, e2⟩ := enterMatingSeason_eff s males g size
  refine ⟨?_, e2, ?_⟩
  · simp [handleMatingSeasons, hin, e1]
  · simp [handleMatingSeasons, hout, leaveMatingSeason_id]

/-- Claim C8 counterexample: a stored male aged 400 days is inserted at
season entry still aged 400 days, although reset_age would have set it to
min_mating_age = 356: the insertion does not reset the age. -/
theorem c8_age_not_reset_on_insertion :
    ((enterMatingSeason initialStatistics [⟨400, (0, 0)⟩] (fun _ => 0) 100).2.map
        MaleState.age_days) = [400] ∧
    resetAge 400 = 356 ∧ (400 : ℕ) ≠ 356 := by
  refine ⟨?_, rfl, by norm_num⟩
  norm_num [enterMatingSeason, addAgentStats, randomPosition]

/-- Witness for c8_season_transitions_census_neutral at months 4 and 6. -/
theorem c8_season_witness :
    matingSeason 4 = true ∧ matingSeason 6 = false ∧
    (handleMatingSeasons 4 false initialStatistics [⟨400, (0, 0)⟩] (fun _ => 0) 100
       = (true, initialStatistics,
          (enterMatingSeason initialStatistics [⟨400, (0, 0)⟩] (fun _ => 0) 100).2) ∧
     ((enterMatingSeason initialStatistics [⟨400, (0, 0)⟩] (fun _ => 0) 100).2.map
         MaleState.age_days = [⟨400, (0, 0)⟩].map MaleState.age_days) ∧
     handleMatingSeasons 6 true initialStatistics [⟨400, (0, 0)⟩] (fun _ => 0) 100
       = (false, initialStatistics, [⟨400, (0, 0)⟩])) :=
  ⟨by decide, by decide,
   c8_season_transitions_census_neutral 4 6 initialStatistics [⟨400, (0, 0)⟩]
     (fun _ => 0) 100 (by decide) (by decide)⟩

/-- The norm of the array (3, 4). -/
theorem npNorm_34 : npNorm ((3 : ℝ), (4 : ℝ)) = 5 := by
  unfold npNorm
  rw [show ((3 : ℝ), (4 : ℝ)).1 ^ 2 + ((3 : ℝ), (4 : ℝ)).2 ^ 2 = 5 ^ 2 by norm_num]
  exact Real.sqrt_sq (by norm_num)

/-- The norm of the array (6, 8). -/
theorem npNorm_68 : npNorm ((6 : ℝ), (8 : ℝ)) = 10 := by
  unfold npNorm
  rw [show ((6 : ℝ), (8 : ℝ)).1 ^ 2 + ((6 : ℝ), (8 : ℝ)).2 ^ 2 = 10 ^ 2 by norm_num]
  exact Real.sqrt_sq (by norm_num)

/-- The distance from the origin to (6, 8). -/
theorem getDistance_068 : getDistance (0, 0) (6, 8) = 10 := by
  unfold getDistance getHeading
  rw [show (((6 : ℝ), (8 : ℝ)).1 - ((0 : ℝ), (0 : ℝ)).1,
        ((6 : ℝ), (8 : ℝ)).2 - ((0 : ℝ), (0 : ℝ)).2) = ((6 : ℝ), (8 : ℝ)) by norm_num]
  exact npNorm_68

/-- The steered vector at the concrete movement state used below: the agent at
the origin with heading (3, 4), one neighbor at (6, 8) with heading (0, 0),
all three weights 1 and separation 1 (the neighbor is 10 away, so the
separation term is zero): the updated heading is (3, 4) + (6, 8) / 2 = (6, 8). -/
theorem updated_concrete :
    updatedHeading (0, 0) (3, 4) [⟨(6, 8), (0, 0)⟩] 1 1 1 1 = (6, 8) := by
  unfold updatedHeading cohereVec separateVec matchHeadingVec
  simp only [List.map, List.length, vListSum, List.foldl]
  rw [if_neg (by rw [getDistance_068]; norm_num)]
  simp [vAdd, sMul, getHeading, Prod.ext_iff]
  norm_num

/-- The numpy norm of a 2-vector vanishes exactly on the zero vector. -/
theorem npNorm_eq_zero_iff (v : Vec2) : npNorm v = 0 ↔ v = (0, 0) := by
  unfold npNorm
  rw [Real.sqrt_eq_zero (by positivity)]
  constructor
  · intro h
    have h1 : v.1 = 0 := by nlinarith [sq_nonneg v.1, sq_nonneg v.2]
    have h2 : v.2 = 0 := by nlinarith [sq_nonneg v.1, sq_nonneg v.2]
    rw [Prod.ext_iff]
    exact ⟨h1, h2⟩
  · rintro rfl
    norm_num

/-- Claim C1 as amended: because the steering increment is added to the very
numpy array that self.heading names, the renormalization line divides the
steered vector by its own (post-update) norm, not by the pre-update heading's
norm; the movement step therefore performs true unit normalization, and the
resulting heading has norm exactly 1 whenever the steered vector is
nonzero. -/
theorem c1_true_unit_normalization (pos heading : Vec2)
    (neighbors : List NeighborBoid) (cf sf mf sep : ℝ)
    (h : updatedHeading pos heading neighbors cf sf mf sep ≠ (0, 0)) :
    npNorm (newHeading pos heading neighbors cf sf mf sep) = 1 := by
  set v := updatedHeading pos heading neighbors cf sf mf sep with hv
  have hn0 : npNorm v ≠ 0 := fun hz => h ((npNorm_eq_zero_iff v).mp hz)
  have hs : (0 : ℝ) ≤ v.1 ^ 2 + v.2 ^ 2 := by positivity
  have hsq : npNorm v ^ 2 = v.1 ^ 2 + v.2 ^ 2 := by
    unfold npNorm
    exact Real.sq_sqrt hs
  have hsne : v.1 ^ 2 + v.2 ^ 2 ≠ 0 := by
    intro hz
    exact hn0 (by unfold npNorm; rw [hz, Real.sqrt_zero])
  have key : (v.1 / npNorm v) ^ 2 + (v.2 / npNorm v) ^ 2 = 1 := by
    rw [div_pow, div_pow, div_add_div_same, hsq]
    exact div_self hsne
  show npNorm (vDiv v (npNorm v)) = 1
  unfold npNorm vDiv
  dsimp only
  calc Real.sqrt ((v.1 / npNorm v) ^ 2 + (v.2 / npNorm v) ^ 2)
      = Real.sqrt 1 := by rw [key]
    _ = 1 := Real.sqrt_one

/-- Witness for c1_true_unit_normalization at the concrete movement state. -/
theorem c1_unit_normalization_witness :
    updatedHeading (0, 0) (3, 4) [⟨(6, 8), (0, 0)⟩] 1 1 1 1 ≠ (0, 0) ∧
    npNorm (newHeading (0, 0) (3, 4) [⟨(6, 8), (0, 0)⟩] 1 1 1 1) = 1 := by
  have hne : updatedHeading (0, 0) (3, 4) [⟨(6, 8), (0, 0)⟩] 1 1 1 1 ≠ (0, 0) := by
    rw [updated_concrete]
    intro hcontra
    rw [Prod.ext_iff] at hcontra
    norm_num at hcontra
  exact ⟨hne, c1_true_unit_normalization _ _ _ _ _ _ _ hne⟩

/-- Claim C1 counterexample: at the concrete movement state the code divides
the steered vector (6, 8) by its own norm 10, giving (3/5, 4/5), while the
claimed formula divides by the pre-update heading's norm 5, giving
(6/5, 8/5): the two disagree, so the new heading is not renormalized by the
pre-update norm. -/
theorem c1_pre_update_norm_cex :
    newHeading (0, 0) (3, 4) [⟨(6, 8), (0, 0)⟩] 1 1 1 1 = (3 / 5, 4 / 5) ∧
    specNewHeadingPreNorm (0, 0) (3, 4) [⟨(6, 8), (0, 0)⟩] 1 1 1 1 = (6 / 5, 8 / 5) ∧
    (((3 : ℝ) / 5, (4 : ℝ) / 5) ≠ ((6 : ℝ) / 5, (8 : ℝ) / 5)) := by
  refine ⟨?_, ?_, ?_⟩
  · unfold newHeading
    rw [updated_concrete, npNorm_68]
    unfold vDiv
    norm_num [Prod.ext_iff]
  · unfold specNewHeadingPreNorm
    rw [updated_concrete, npNorm_34]
    unfold vDiv
    norm_num [Prod.ext_iff]
  · intro hcontra
    rw [Prod.ext_iff] at hcontra
    norm_num at hcontra

end CattleFarm
